import Mathlib

/-!
# Lowering strategies of the ONNX Runtime execution providers

A shallow embedding of two operator builders:

* `onnxruntime.webnn`  : `ShapeOpBuilder` (webnn/builders/impl/shape_op_builder.cc)
* `onnxruntime.coreml` : `BatchNormalizationOpBuilder`
  (coreml/builders/impl/batch_norm_op_builder.cc)

Machine integers are exact integers wrapped explicitly (`wrap32`), fallible code returns
`Except Failure _`, and mutable builder objects are passed as explicit state.
-/

namespace onnxruntime

/-! ## Shared machine-level vocabulary -/

/-- Smallest value of `int32_t`. -/
def INT32_MIN : Int := -2147483648

/-- Largest value of `int32_t`. -/
def INT32_MAX : Int := 2147483647

/-- Membership in the range of `int32_t`. -/
def isInt32 (x : Int) : Prop := INT32_MIN ≤ x ∧ x ≤ INT32_MAX

instance (x : Int) : Decidable (isInt32 x) := by
  unfold isInt32; exact inferInstance

/-- Two's-complement reduction of an exact integer to `int32_t`. -/
def wrap32 (x : Int) : Int := (x + 2147483648) % 4294967296 - 2147483648

/-- Addition on `int32_t` as the machine performs it. -/
def add32 (a b : Int) : Int := wrap32 (a + b)

/-- Subtraction on `int32_t` as the machine performs it. -/
def sub32 (a b : Int) : Int := wrap32 (a - b)

/-- The function `std::clamp(v, lo, hi)`: `(v < lo) ? lo : (hi < v) ? hi : v`. -/
def clamp (v lo hi : Int) : Int :=
  if v < lo then lo else if hi < v then hi else v

/-- Ways in which a builder call can fail to complete with `Status::OK()`. -/
inductive Failure where
  /-- A non-OK `Status` was returned (`ORT_RETURN_IF_NOT`, `ORT_RETURN_IF_ERROR`). -/
  | status (msg : String)
  /-- A C++ exception was thrown (`std::out_of_range` from `map::at`). -/
  | exception (what : String)
  /-- An access outside the bounds of a container, or through a null pointer. -/
  | undefined (what : String)
  deriving DecidableEq, Repr

/-- Modelled from the spec: `NodeAttrHelper::Get(key, def_val)` (shared/utils/utils.h) is the
query `get_attribute(node, name, default)`: the stored value when the attribute is present,
`def_val` otherwise.  The attribute list holds the values as the typed overload returns
them (`int` for the integer attributes read in this file). -/
def NodeAttrHelper.Get {α : Type} (attrs : List (String × α)) (key : String) (def_val : α) : α :=
  (attrs.lookup key).getD def_val

/-- The ONNX element-type code of single-precision tensors. -/
def TensorProto_DataType_FLOAT : Int := 1

/-- The ONNX element-type code of 32-bit integer tensors. -/
def TensorProto_DataType_INT32 : Int := 6

/-- The ONNX element-type code of 64-bit integer tensors. -/
def TensorProto_DataType_INT64 : Int := 7

/-- The ONNX element-type code of half-precision tensors. -/
def TensorProto_DataType_FLOAT16 : Int := 10

/-- Modelled from the spec: `OpBuilderRegistrations` (op_builder_factory.h) is the strategy
registry, the owning vector `builders` and the map `op_builder_map` from operator-kind name
to a non-owning pointer into it.  A pointer to the element `builders[i]` is the index `i`. -/
structure OpBuilderRegistrations (β : Type) where
  builders : List β
  op_builder_map : List (String × Nat)

/-- The call `std::unordered_map::emplace(key, value)`: inserts when no element with the
key exists, and otherwise leaves the container unchanged. -/
def map_emplace {υ : Type} (m : List (String × υ)) (key : String) (value : υ) : List (String × υ) :=
  match m.lookup key with
  | some _ => m
  | none => m ++ [(key, value)]

/-- Registry lookup: the builder that the map entry for `op_type` points to. -/
def OpBuilderRegistrations.find {β : Type} (r : OpBuilderRegistrations β) (op_type : String) :
    Option β :=
  match r.op_builder_map.lookup op_type with
  | some i => r.builders.get? i
  | none => none

/-! ## WebNN: `ShapeOpBuilder` -/

namespace webnn

/-- A graph value as the Shape builder sees it: its name and the result of
`GetShape` (`none` when the shape is not known). -/
structure NodeArg where
  Name : String
  Shape : Option (List Int)
  deriving DecidableEq, Repr

/-- A graph node: name, ordered inputs and outputs, integer attributes. -/
structure Node where
  Name : String
  InputDefs : List NodeArg
  OutputDefs : List NodeArg
  attrs : List (String × Int)
  deriving DecidableEq, Repr

/-- Modelled from the spec: `GetShape(node_arg, shape, logger)` (webnn/builders/helper.h) is
the shape query, returning the dimensions of a value or reporting that they are unknown. -/
def GetShape (arg : NodeArg) : Option (List Int) := arg.Shape

/-- The operand descriptor object built for the shape constant. -/
structure OperandDescriptor where
  dimensions : List Int
  shape : List Int
  dataType : Int
  deriving DecidableEq, Repr

/-- WebNN operands produced by the builder calls made in this file. -/
inductive Operand where
  | constant (desc : OperandDescriptor) (typed_array_name : String) (buffer : List Int)
  | slice (input : Operand) (starts : List Int) (sizes : List Int) (label : String)
  deriving DecidableEq, Repr

/-- The emission context of the WebNN provider. -/
structure ModelBuilder where
  IsInt64Supported : Bool
  operands : List (String × Operand)
  deriving DecidableEq, Repr

/-- Modelled from the spec: `ModelBuilder::AddOperand(name, operand)` (model_builder.cc)
appends the operand emitted for a named output value to the emission context. -/
def ModelBuilder.AddOperand (mb : ModelBuilder) (name : String) (operand : Operand) : ModelBuilder :=
  { mb with operands := mb.operands ++ [(name, operand)] }

/-- Element conversion performed when a typed array is constructed from the shape vector:
`BigInt64Array` keeps 64-bit values, `Int32Array` reduces modulo 2^32. -/
def typedArrayElement (typed_array_name : String) (x : Int) : Int :=
  if typed_array_name = "Int32Array" then wrap32 x else x

/-- The three values computed on lines 49-55 of shape_op_builder.cc. -/
structure SliceArgs where
  true_start : Int
  true_end : Int
  slice_length : Int
  deriving DecidableEq, Repr

/-- Lines 49-55: attribute read, negative-index adjustment, clamping, length.
All arithmetic is `int32_t` arithmetic. -/
def computeSlice (attrs : List (String × Int)) (rank : Int) : SliceArgs :=
  let true_start := NodeAttrHelper.Get attrs "start" 0
  let true_end := NodeAttrHelper.Get attrs "end" rank
  let true_start := clamp (add32 true_start (if true_start < 0 then rank else 0)) 0 rank
  let true_end := clamp (add32 true_end (if true_end < 0 then rank else 0)) true_start rank
  let slice_length := sub32 true_end true_start
  { true_start := true_start, true_end := true_end, slice_length := slice_length }

/-- The method `ShapeOpBuilder::AddToModelBuilderImpl`.  `SetWebnnDataType` (helper.h) is
taken as a parameter: it reports whether the backend supports a data type. -/
def AddToModelBuilderImpl (SetWebnnDataType : Int → Bool) (model_builder : ModelBuilder)
    (node : Node) : Except Failure ModelBuilder :=
  match node.InputDefs.get? 0 with
  | none => .error (.undefined "input_defs[0]")
  | some input0 =>
    match GetShape input0 with
    | none => .error (.status "Cannot get shape")
    | some input_shape =>
      let rank := wrap32 (input_shape.length : Int)
      let dims := [rank]
      let data_type :=
        if !model_builder.IsInt64Supported then TensorProto_DataType_INT32
        else TensorProto_DataType_INT64
      let typed_array_name :=
        if !model_builder.IsInt64Supported then "Int32Array" else "BigInt64Array"
      if !SetWebnnDataType data_type then
        .error (.status "WebNN backend does not support data type")
      else
        let desc : OperandDescriptor := { dimensions := dims, shape := dims, dataType := data_type }
        let shape_buffer := input_shape.map (typedArrayElement typed_array_name)
        let shape_constant := Operand.constant desc typed_array_name shape_buffer
        let s := computeSlice node.attrs rank
        let starts := [s.true_start]
        let sizes := [s.slice_length]
        let output := Operand.slice shape_constant starts sizes node.Name
        match node.OutputDefs.get? 0 with
        | none => .error (.undefined "OutputDefs()[0]")
        | some output0 => .ok (model_builder.AddOperand output0.Name output)

/-- The builder object registered for an operator kind. -/
inductive OpBuilder where
  | ShapeOpBuilder
  deriving DecidableEq, Repr

/-- The function `CreateShapeOpBuilder(op_type, op_registrations)`. -/
def CreateShapeOpBuilder (op_type : String) (op_registrations : OpBuilderRegistrations OpBuilder) :
    OpBuilderRegistrations OpBuilder :=
  let builders := op_registrations.builders ++ [OpBuilder.ShapeOpBuilder]
  { builders := builders,
    op_builder_map := map_emplace op_registrations.op_builder_map op_type (builders.length - 1) }

/-- Elements held by a one-dimensional operand: a constant holds its buffer, and
`slice(input, [start], [size])` holds `size` elements of `input` from position `start`. -/
def Operand.elements : Operand → List Int
  | .constant _ _ buffer => buffer
  | .slice input starts sizes _ =>
    match starts, sizes with
    | [st], [sz] => (input.elements.drop st.toNat).take sz.toNat
    | _, _ => []

/-- Reference result of ONNX Shape, following the words of the specification: `start` and
`end` are each offset by the rank when negative, each clamped to `[0, rank]`, and the
result is `shape[start:end]`, empty when `end <= start`. -/
def onnxShapeReference (shape : List Int) (start : Option Int) (end_ : Option Int) : List Int :=
  let r : Int := shape.length
  let s0 := start.getD 0
  let e0 := end_.getD r
  let s := max 0 (min r (if s0 < 0 then s0 + r else s0))
  let e := max 0 (min r (if e0 < 0 then e0 + r else e0))
  if e ≤ s then [] else (shape.drop s.toNat).take (e - s).toNat

/-- The effective start of the specification, in exact arithmetic:
`clamp(start + (start<0 ? rank : 0), 0, rank)`. -/
def effective_start (rank start : Int) : Int :=
  clamp (start + (if start < 0 then rank else 0)) 0 rank

/-- The effective end of the specification, in exact arithmetic:
`clamp(end + (end<0 ? rank : 0), effective_start, rank)`. -/
def effective_end (rank start end_ : Int) : Int :=
  clamp (end_ + (if end_ < 0 then rank else 0)) (effective_start rank start) rank

/-- An ONNX slice bound: offset by the rank when negative, then clamped to `[0, rank]`. -/
def onnxBound (rank v : Int) : Int :=
  max 0 (min rank (if v < 0 then v + rank else v))

/-- The data type that lines 36-42 select for the shape constant. -/
def shapeDataType (model_builder : ModelBuilder) : Int :=
  if !model_builder.IsInt64Supported then TensorProto_DataType_INT32
  else TensorProto_DataType_INT64

/-- The typed array that lines 36-42 select for the shape constant. -/
def shapeTypedArray (model_builder : ModelBuilder) : String :=
  if !model_builder.IsInt64Supported then "Int32Array" else "BigInt64Array"

/-- The shape constant built on lines 31-46 for a known input shape. -/
def shapeConstant (model_builder : ModelBuilder) (input_shape : List Int) : Operand :=
  let rank := wrap32 (input_shape.length : Int)
  Operand.constant { dimensions := [rank], shape := [rank], dataType := shapeDataType model_builder }
    (shapeTypedArray model_builder)
    (input_shape.map (typedArrayElement (shapeTypedArray model_builder)))

end webnn

/-! ## CoreML: `BatchNormalizationOpBuilder` -/

namespace coreml

/-- A single-precision value, identified by its IEEE-754 bit pattern. -/
structure Float32 where
  bits : Nat
  deriving DecidableEq, Repr

/-- The literal `1e-5f`. -/
def default_epsilon : Float32 := ⟨0x3727C5AC⟩

/-- A constant tensor of the source graph (`ONNX_NAMESPACE::TensorProto`). -/
structure TensorProto where
  name : String
  data_type : Int
  dims : List Int
  raw_data : List Nat
  deriving DecidableEq, Repr

/-- The tensor type of a graph value: element type and, when known, the shape. -/
structure TypeProto where
  elem_type : Int
  shape : Option (List Int)
  deriving DecidableEq, Repr

/-- A graph value: its name and `TypeAsProto()` (`none` for a null pointer). -/
structure NodeArg where
  Name : String
  TypeAsProto : Option TypeProto
  deriving DecidableEq, Repr

/-- Modelled from the spec: `GetShape(node_arg, shape, logger)` (coreml/shape_utils.h) is the
shape query, returning the dimensions of a value or reporting that they are unknown; a
value without type information has no shape. -/
def GetShape (arg : NodeArg) : Option (List Int) :=
  match arg.TypeAsProto with
  | none => none
  | some t => t.shape

/-- A graph node: name, ordered inputs and outputs, integer and float attributes. -/
structure Node where
  Name : String
  InputDefs : List NodeArg
  OutputDefs : List NodeArg
  int_attrs : List (String × Int)
  float_attrs : List (String × Float32)
  deriving DecidableEq, Repr

/-- The initializer store: value name to constant tensor (`InitializedTensorSet`). -/
abbrev InitializedTensorSet := List (String × TensorProto)

/-- The function `Contains(map, key)` (core/common): whether the map has the key. -/
def Contains (initializers : InitializedTensorSet) (key : String) : Bool :=
  (initializers.lookup key).isSome

/-- The call `initializers.at(key)`, which throws `std::out_of_range` for a missing key. -/
def InitializedTensorSet.at (initializers : InitializedTensorSet) (key : String) :
    Except Failure TensorProto :=
  match initializers.lookup key with
  | some t => .ok t
  | none => .error (.exception "map::at")

/-- The parameters handed to a support predicate. -/
structure OpBuilderInputParams where
  GetAllInitializedTensors : InitializedTensorSet
  coreml_version : Int
  deriving DecidableEq, Repr

/-- A weight blob of the fixed-function dialect (`WeightParams`). -/
structure WeightParams where
  values : List Nat
  deriving DecidableEq, Repr

/-- The parameter block of a batch-normalization layer (`BatchnormLayerParams`). -/
structure BatchnormLayerParams where
  channels : Int
  epsilon : Float32
  computeMeanVar : Bool
  instanceNormalization : Bool
  gamma : WeightParams
  beta : WeightParams
  mean : WeightParams
  variance : WeightParams
  deriving DecidableEq, Repr

/-- A layer record of the fixed-function dialect (`NeuralNetworkLayer`). -/
structure NeuralNetworkLayer where
  name : String
  input : List String
  output : List String
  batchnorm : Option BatchnormLayerParams
  deriving DecidableEq, Repr

/-- An operation of the generalized-program dialect (`MILSpec::Operation`): its type, the
named inputs (parameter name, bound value name) and the output names. -/
structure Operation where
  type : String
  name : String
  inputs : List (String × String)
  outputs : List String
  deriving DecidableEq, Repr

/-- The value of a materialized constant: a tensor taken from an initializer, a
single-precision scalar, or the half-precision scalar `MLFloat16(v)` obtained from the
single-precision value `v`. -/
inductive ConstantValue where
  | tensor (t : TensorProto)
  | scalar_float (v : Float32)
  | scalar_fp16 (v : Float32)
  deriving DecidableEq, Repr

/-- The emission context of the CoreML provider. -/
structure ModelBuilder where
  CreateMLProgram : Bool
  GetInitializerTensors : InitializedTensorSet
  skipped_initializers : List String
  layers : List NeuralNetworkLayer
  operations : List Operation
  constants : List (String × ConstantValue)
  name_token : Nat
  deriving DecidableEq, Repr

/-- Modelled from the spec: `ModelBuilder::AddInitializerToSkip` (model_builder.cc) marks a
name in the set of initializers that are "already consumed, do not also emit as a plain
input"; marking a name already in the set changes nothing. -/
def ModelBuilder.AddInitializerToSkip (mb : ModelBuilder) (tensor_name : String) : ModelBuilder :=
  if tensor_name ∈ mb.skipped_initializers then mb
  else { mb with skipped_initializers := mb.skipped_initializers ++ [tensor_name] }

/-- Modelled from the spec: `ModelBuilder::CreateNNLayer` (model_builder.cc) allocates a new
layer record for the node; nothing is appended to the context. -/
def ModelBuilder.CreateNNLayer (_mb : ModelBuilder) (node : Node) : NeuralNetworkLayer :=
  { name := node.Name, input := [], output := [], batchnorm := none }

/-- Modelled from the spec: `ModelBuilder::CreateOperation` (model_builder.cc) allocates a
new named operation tagged with the target op name; nothing is appended to the context. -/
def ModelBuilder.CreateOperation (_mb : ModelBuilder) (node : Node) (op_type : String) : Operation :=
  { type := op_type, name := node.Name, inputs := [], outputs := [] }

/-- Modelled from the spec: the name-uniquing service of the emission context
(model_builder.cc) synthesizes a fresh constant name from the operation type, the value
type and a running token. -/
def uniqueConstantName (name_token : Nat) (op_type value_type : String) : String :=
  op_type ++ "_" ++ value_type ++ "_" ++ toString name_token

/-- Modelled from the spec: `ModelBuilder::AddConstant` and `ModelBuilder::AddScalarConstant`
(model_builder.cc) materialize a named constant in the target graph and return its name. -/
def ModelBuilder.AddConstant (mb : ModelBuilder) (op_type value_type : String) (value : ConstantValue) :
    String × ModelBuilder :=
  let name := uniqueConstantName mb.name_token op_type value_type
  (name, { mb with constants := mb.constants ++ [(name, value)], name_token := mb.name_token + 1 })

/-- Modelled from the spec: `ModelBuilder::AddOperation` (model_builder.cc) appends the
operation to the append-only sequence of the emission context. -/
def ModelBuilder.AddOperation (mb : ModelBuilder) (op : Operation) : ModelBuilder :=
  { mb with operations := mb.operations ++ [op] }

/-- Modelled from the spec: `ModelBuilder::AddLayer` (model_builder.cc) appends the layer to
the append-only sequence of the emission context. -/
def ModelBuilder.AddLayer (mb : ModelBuilder) (layer : NeuralNetworkLayer) : ModelBuilder :=
  { mb with layers := mb.layers ++ [layer] }

/-- Modelled from the spec: `AddOperationInput(op, input_name, value_name)`
(builder_utils.h) binds a semantic parameter by name; the inputs of an operation form a
map, so binding a parameter name replaces an earlier binding of the same name. -/
def AddOperationInput (op : Operation) (input_name value_name : String) : Operation :=
  { op with inputs := op.inputs.filter (fun kv => kv.1 != input_name) ++ [(input_name, value_name)] }

/-- Modelled from the spec: `AddOperationOutput(op, output)` (builder_utils.h) binds an
output of the operation to the named graph value. -/
def AddOperationOutput (op : Operation) (output : NodeArg) : Operation :=
  { op with outputs := op.outputs ++ [output.Name] }

/-- The element `input_defs[i]`; an index outside the vector is undefined behaviour. -/
def inputDef (defs : List NodeArg) (i : Nat) : Except Failure NodeArg :=
  match defs.get? i with
  | some a => .ok a
  | none => .error (.undefined "input_defs[i]")

/-- The method `BatchNormalizationOpBuilder::AddInitializersToSkip`. -/
def AddInitializersToSkip (model_builder : ModelBuilder) (node : Node) : Except Failure ModelBuilder := do
  let input_defs := node.InputDefs
  let model_builder := model_builder.AddInitializerToSkip (← inputDef input_defs 1).Name
  let model_builder := model_builder.AddInitializerToSkip (← inputDef input_defs 2).Name
  let model_builder := model_builder.AddInitializerToSkip (← inputDef input_defs 3).Name
  let model_builder := model_builder.AddInitializerToSkip (← inputDef input_defs 4).Name
  return model_builder

/-- Lifting of a `Status` returned by a weight conversion (`ORT_RETURN_IF_ERROR`). -/
def returnIfError {α : Type} (r : Except String α) : Except Failure α :=
  match r with
  | .ok a => .ok a
  | .error msg => .error (.status msg)

/-- The method `BatchNormalizationOpBuilder::AddToModelBuilderImpl`.  `CreateCoreMLWeight`
(builder_utils.h) is taken as a parameter: it converts an initializer to a weight blob or
reports an error status. -/
def AddToModelBuilderImpl (CreateCoreMLWeight : TensorProto → Except String WeightParams)
    (model_builder : ModelBuilder) (node : Node) : Except Failure ModelBuilder := do
  let layer := model_builder.CreateNNLayer node
  let input_defs := node.InputDefs
  let initializers := model_builder.GetInitializerTensors
  let scale_tensor ← initializers.at (← inputDef input_defs 1).Name
  let bias_tensor ← initializers.at (← inputDef input_defs 2).Name
  let mean_tensor ← initializers.at (← inputDef input_defs 3).Name
  let var_tensor ← initializers.at (← inputDef input_defs 4).Name
  let eps := NodeAttrHelper.Get node.float_attrs "epsilon" default_epsilon
  let channels ← match scale_tensor.dims.get? 0 with
    | some c => Except.ok c
    | none => Except.error (Failure.undefined "scale_tensor.dims()[0]")
  if model_builder.CreateMLProgram then
    let op := model_builder.CreateOperation node "batch_norm"
    let op := AddOperationInput op "x" (← inputDef input_defs 0).Name
    let (c, model_builder) :=
      model_builder.AddConstant op.type ((← inputDef input_defs 3).Name ++ "mean") (.tensor mean_tensor)
    let op := AddOperationInput op "mean" c
    let (c, model_builder) :=
      model_builder.AddConstant op.type ((← inputDef input_defs 4).Name ++ "variance") (.tensor var_tensor)
    let op := AddOperationInput op "variance" c
    let (c, model_builder) :=
      model_builder.AddConstant op.type (← inputDef input_defs 1).Name (.tensor scale_tensor)
    let op := AddOperationInput op "gamma" c
    let (c, model_builder) :=
      model_builder.AddConstant op.type (← inputDef input_defs 2).Name (.tensor bias_tensor)
    let op := AddOperationInput op "beta" c
    let input_dtype ← match (← inputDef input_defs 0).TypeAsProto with
      | some t => Except.ok t.elem_type
      | none => Except.error (Failure.undefined "TypeAsProto()")
    let (c, model_builder) :=
      if input_dtype = TensorProto_DataType_FLOAT16 then
        model_builder.AddConstant op.type "epsilon" (.scalar_fp16 eps)
      else
        model_builder.AddConstant op.type "epsilon" (.scalar_float eps)
    let op := AddOperationInput op "epsilon" c
    let output0 ← match node.OutputDefs.get? 0 with
      | some o => Except.ok o
      | none => Except.error (Failure.undefined "OutputDefs()[0]")
    let op := AddOperationOutput op output0
    return model_builder.AddOperation op
  else
    let gamma ← returnIfError (CreateCoreMLWeight scale_tensor)
    let beta ← returnIfError (CreateCoreMLWeight bias_tensor)
    let mean ← returnIfError (CreateCoreMLWeight mean_tensor)
    let variance ← returnIfError (CreateCoreMLWeight var_tensor)
    let coreml_batch_norm : BatchnormLayerParams :=
      { channels := channels % 18446744073709551616, epsilon := eps,
        computeMeanVar := false, instanceNormalization := false,
        gamma := gamma, beta := beta, mean := mean, variance := variance }
    let input0 ← inputDef input_defs 0
    let output0 ← match node.OutputDefs.get? 0 with
      | some o => Except.ok o
      | none => Except.error (Failure.undefined "OutputDefs()[0]")
    let layer := { layer with batchnorm := some coreml_batch_norm,
                              input := layer.input ++ [input0.Name],
                              output := layer.output ++ [output0.Name] }
    return model_builder.AddLayer layer

/-- The method `BatchNormalizationOpBuilder::IsOpSupportedImpl`.  The flag
`target_ios_x86_64` is the build condition `TARGET_OS_IOS && TARGET_CPU_X86_64` that
guards lines 151-159. -/
def IsOpSupportedImpl (target_ios_x86_64 : Bool) (node : Node) (input_params : OpBuilderInputParams) :
    Except Failure Bool := do
  if node.OutputDefs.length ≠ 1 then
    return false
  let input_defs := node.InputDefs
  let input0 ← inputDef input_defs 0
  match GetShape input0 with
  | none => return false
  | some input_shape =>
    let input_size := input_shape.length
    if input_size ≠ 4 then
      return false
    let spatial := NodeAttrHelper.Get node.int_attrs "spatial" 1
    if spatial ≠ 1 then
      return false
    let scale_name := (← inputDef input_defs 1).Name
    let b_name := (← inputDef input_defs 2).Name
    let mean_name := (← inputDef input_defs 3).Name
    let var_name := (← inputDef input_defs 4).Name
    let initializers := input_params.GetAllInitializedTensors
    if !Contains initializers scale_name then
      return false
    if !Contains initializers b_name then
      return false
    if !Contains initializers mean_name then
      return false
    if !Contains initializers var_name then
      return false
    if target_ios_x86_64 then
      let input_dtype ← match input0.TypeAsProto with
        | some t => Except.ok t.elem_type
        | none => Except.error (Failure.undefined "TypeAsProto()")
      if input_dtype = TensorProto_DataType_FLOAT16 ∧ input_params.coreml_version < 7 then
        return false
    return true

/-- The builder object registered for an operator kind. -/
inductive OpBuilder where
  | BatchNormalizationOpBuilder
  deriving DecidableEq, Repr

/-- The function `CreateBatchNormalizationOpBuilder(op_type, op_registrations)`. -/
def CreateBatchNormalizationOpBuilder (op_type : String)
    (op_registrations : OpBuilderRegistrations OpBuilder) : OpBuilderRegistrations OpBuilder :=
  let builders := op_registrations.builders ++ [OpBuilder.BatchNormalizationOpBuilder]
  { builders := builders,
    op_builder_map := map_emplace op_registrations.op_builder_map op_type (builders.length - 1) }

end coreml

/-! ## Concrete inputs used to exercise the theorems -/

namespace webnn

/-- A Shape node over a rank-4 input with `start = -2` and `end = 4`. -/
def exampleNode : Node :=
  { Name := "shape_0",
    InputDefs := [{ Name := "x", Shape := some [2, 3, 4, 5] }],
    OutputDefs := [{ Name := "y", Shape := none }],
    attrs := [("start", -2), ("end", 4)] }

/-- An empty WebNN emission context with 64-bit integer support. -/
def exampleBuilder : ModelBuilder := { IsInt64Supported := true, operands := [] }

/-- A backend that supports the 32-bit and 64-bit integer data types. -/
def exampleSetWebnnDataType (data_type : Int) : Bool :=
  data_type = TensorProto_DataType_INT32 || data_type = TensorProto_DataType_INT64

/-- A registry in which `Shape` is already registered. -/
def exampleRegistrations : OpBuilderRegistrations OpBuilder :=
  { builders := [OpBuilder.ShapeOpBuilder], op_builder_map := [("Shape", 0)] }

end webnn

namespace coreml

/-- A single-precision activation of shape `[1, 3, 8, 8]`. -/
def exampleInput : NodeArg :=
  { Name := "x", TypeAsProto := some { elem_type := TensorProto_DataType_FLOAT, shape := some [1, 3, 8, 8] } }

/-- A parameter input or output value without type information. -/
def exampleArg (name : String) : NodeArg := { Name := name, TypeAsProto := none }

/-- An inference-mode BatchNormalization node: five inputs, one output, no attributes. -/
def exampleNode : Node :=
  { Name := "bn_0",
    InputDefs := [exampleInput, exampleArg "scale", exampleArg "B", exampleArg "mean", exampleArg "var"],
    OutputDefs := [exampleArg "y"],
    int_attrs := [],
    float_attrs := [] }

/-- A training-mode export of the same node: the two running statistics are extra outputs. -/
def exampleTrainingNode : Node :=
  { exampleNode with OutputDefs := [exampleArg "y", exampleArg "running_mean", exampleArg "running_var"] }

/-- A half-precision activation of shape `[1, 3, 8, 8]`. -/
def exampleHalfInput : NodeArg :=
  { Name := "x", TypeAsProto := some { elem_type := TensorProto_DataType_FLOAT16, shape := some [1, 3, 8, 8] } }

/-- The same node over a half-precision activation. -/
def exampleHalfNode : Node :=
  { exampleNode with
    InputDefs := [exampleHalfInput, exampleArg "scale", exampleArg "B", exampleArg "mean", exampleArg "var"] }

/-- A one-dimensional single-precision parameter tensor with three channels. -/
def exampleTensor (name : String) : TensorProto :=
  { name := name, data_type := TensorProto_DataType_FLOAT, dims := [3], raw_data := [0, 0, 0] }

/-- An initializer store holding the four parameter tensors. -/
def exampleInitializers : InitializedTensorSet :=
  [("scale", exampleTensor "scale"), ("B", exampleTensor "B"),
   ("mean", exampleTensor "mean"), ("var", exampleTensor "var")]

/-- An initializer store whose `scale` tensor is a scalar (no dimensions). -/
def exampleScalarScaleInitializers : InitializedTensorSet :=
  [("scale", { name := "scale", data_type := TensorProto_DataType_FLOAT, dims := [], raw_data := [0] }),
   ("B", exampleTensor "B"), ("mean", exampleTensor "mean"), ("var", exampleTensor "var")]

/-- Predicate parameters over `exampleInitializers` on CoreML 6. -/
def exampleParams : OpBuilderInputParams :=
  { GetAllInitializedTensors := exampleInitializers, coreml_version := 6 }

/-- An empty emission context over a given initializer store and dialect. -/
def exampleBuilder (ml_program : Bool) (initializers : InitializedTensorSet) : ModelBuilder :=
  { CreateMLProgram := ml_program, GetInitializerTensors := initializers,
    skipped_initializers := [], layers := [], operations := [], constants := [], name_token := 0 }

/-- A weight conversion that always succeeds, copying the raw data. -/
def exampleCreateCoreMLWeight (tensor : TensorProto) : Except String WeightParams :=
  .ok { values := tensor.raw_data }

/-- A weight conversion that accepts single-precision tensors only and reports an error
status for every other element type. -/
def exampleFloatOnlyCreateCoreMLWeight (tensor : TensorProto) : Except String WeightParams :=
  if tensor.data_type = TensorProto_DataType_FLOAT then .ok { values := tensor.raw_data }
  else .error "The initializer of graph has unsupported type"

/-- An initializer store whose `scale` tensor holds double-precision data (type code 11). -/
def exampleDoubleScaleInitializers : InitializedTensorSet :=
  [("scale", { name := "scale", data_type := 11, dims := [3], raw_data := [0, 0, 0] }),
   ("B", exampleTensor "B"), ("mean", exampleTensor "mean"), ("var", exampleTensor "var")]

/-- A registry in which `BatchNormalization` is already registered. -/
def exampleRegistrations : OpBuilderRegistrations OpBuilder :=
  { builders := [OpBuilder.BatchNormalizationOpBuilder],
    op_builder_map := [("BatchNormalization", 0)] }

end coreml

/-! ## Theorems -/

theorem wrap32_of_isInt32 {x : Int} (h : isInt32 x) : wrap32 x = x := by
  unfold isInt32 INT32_MIN INT32_MAX at h
  unfold wrap32
  omega

namespace webnn

theorem computeSlice_exact (attrs : List (String × Int)) (rank : Int)
    (hr0 : 0 ≤ rank) (hr : rank ≤ INT32_MAX)
    (hs : isInt32 (NodeAttrHelper.Get attrs "start" 0))
    (he : isInt32 (NodeAttrHelper.Get attrs "end" rank)) :
    computeSlice attrs rank =
      { true_start := effective_start rank (NodeAttrHelper.Get attrs "start" 0),
        true_end := effective_end rank (NodeAttrHelper.Get attrs "start" 0)
          (NodeAttrHelper.Get attrs "end" rank),
        slice_length := effective_end rank (NodeAttrHelper.Get attrs "start" 0)
          (NodeAttrHelper.Get attrs "end" rank)
          - effective_start rank (NodeAttrHelper.Get attrs "start" 0) } := by
  generalize hS : NodeAttrHelper.Get attrs "start" 0 = s0 at hs ⊢
  generalize hE : NodeAttrHelper.Get attrs "end" rank = e0 at he ⊢
  unfold isInt32 INT32_MIN INT32_MAX at hs he
  unfold INT32_MAX at hr
  have h1 : add32 s0 (if s0 < 0 then rank else 0) = s0 + (if s0 < 0 then rank else 0) := by
    unfold add32 wrap32; split_ifs <;> omega
  have h2 : add32 e0 (if e0 < 0 then rank else 0) = e0 + (if e0 < 0 then rank else 0) := by
    unfold add32 wrap32; split_ifs <;> omega
  have hs1 : 0 ≤ effective_start rank s0 ∧ effective_start rank s0 ≤ rank := by
    unfold effective_start clamp; split_ifs <;> omega
  have he1 : effective_start rank s0 ≤ effective_end rank s0 e0 ∧ effective_end rank s0 e0 ≤ rank := by
    unfold effective_end clamp; split_ifs <;> omega
  have h3 : sub32 (effective_end rank s0 e0) (effective_start rank s0)
      = effective_end rank s0 e0 - effective_start rank s0 := by
    unfold sub32 wrap32; omega
  simp only [computeSlice, hS, hE, h1, h2]
  rw [show clamp (s0 + if s0 < 0 then rank else 0) 0 rank = effective_start rank s0 from rfl,
      show clamp (e0 + if e0 < 0 then rank else 0) (effective_start rank s0) rank
        = effective_end rank s0 e0 from rfl, h3]

theorem AddToModelBuilderImpl_ok (SetWebnnDataType : Int → Bool) (model_builder : ModelBuilder)
    (node : Node) (input0 output0 : NodeArg) (input_shape : List Int)
    (h_in : node.InputDefs.get? 0 = some input0)
    (h_shape : GetShape input0 = some input_shape)
    (h_type : SetWebnnDataType (shapeDataType model_builder) = true)
    (h_out : node.OutputDefs.get? 0 = some output0) :
    AddToModelBuilderImpl SetWebnnDataType model_builder node =
      .ok (model_builder.AddOperand output0.Name
        (Operand.slice (shapeConstant model_builder input_shape)
          [(computeSlice node.attrs (wrap32 (input_shape.length : Int))).true_start]
          [(computeSlice node.attrs (wrap32 (input_shape.length : Int))).slice_length]
          node.Name)) := by
  unfold shapeDataType at h_type
  simp only [AddToModelBuilderImpl, h_in, h_shape, h_type, h_out, shapeConstant, shapeDataType,
    shapeTypedArray, Bool.not_true, Bool.false_eq_true, if_false]

theorem rank_cast (input_shape : List Int) (h : (input_shape.length : Int) ≤ INT32_MAX) :
    wrap32 (input_shape.length : Int) = (input_shape.length : Int) := by
  apply wrap32_of_isInt32
  unfold isInt32 INT32_MIN
  exact ⟨by omega, h⟩

theorem AddToModelBuilderImpl_effective (SetWebnnDataType : Int → Bool)
    (model_builder : ModelBuilder) (node : Node) (input0 output0 : NodeArg)
    (input_shape : List Int)
    (h_in : node.InputDefs.get? 0 = some input0)
    (h_shape : GetShape input0 = some input_shape)
    (h_type : SetWebnnDataType (shapeDataType model_builder) = true)
    (h_out : node.OutputDefs.get? 0 = some output0)
    (h_rank : (input_shape.length : Int) ≤ INT32_MAX)
    (h_start : isInt32 (NodeAttrHelper.Get node.attrs "start" 0))
    (h_end : isInt32 (NodeAttrHelper.Get node.attrs "end" (input_shape.length : Int))) :
    AddToModelBuilderImpl SetWebnnDataType model_builder node =
      .ok (model_builder.AddOperand output0.Name
        (Operand.slice (shapeConstant model_builder input_shape)
          [effective_start input_shape.length (NodeAttrHelper.Get node.attrs "start" 0)]
          [effective_end input_shape.length (NodeAttrHelper.Get node.attrs "start" 0)
              (NodeAttrHelper.Get node.attrs "end" (input_shape.length : Int))
            - effective_start input_shape.length (NodeAttrHelper.Get node.attrs "start" 0)]
          node.Name)) := by
  rw [AddToModelBuilderImpl_ok SetWebnnDataType model_builder node input0 output0 input_shape
    h_in h_shape h_type h_out, rank_cast input_shape h_rank,
    computeSlice_exact node.attrs _ (by omega) h_rank h_start h_end]

/-- C1: for a node whose input 0 has a known shape of rank `r` (an `int32_t`, so
`r ≤ INT32_MAX`) and whose `start` and `end` attributes are 32-bit values (defaults 0 and
`r`), `ShapeOpBuilder::AddToModelBuilderImpl` returns OK and emits a slice of the shape
constant whose start is `effective_start` and whose size is
`effective_end - effective_start`; the three worked examples of the specification hold. -/
theorem C1_shape_slice_start_and_size (SetWebnnDataType : Int → Bool)
    (model_builder : ModelBuilder) (node : Node) (input0 output0 : NodeArg)
    (input_shape : List Int)
    (h_in : node.InputDefs.get? 0 = some input0)
    (h_shape : GetShape input0 = some input_shape)
    (h_type : SetWebnnDataType (shapeDataType model_builder) = true)
    (h_out : node.OutputDefs.get? 0 = some output0)
    (h_rank : (input_shape.length : Int) ≤ INT32_MAX)
    (h_start : isInt32 (NodeAttrHelper.Get node.attrs "start" 0))
    (h_end : isInt32 (NodeAttrHelper.Get node.attrs "end" (input_shape.length : Int))) :
    AddToModelBuilderImpl SetWebnnDataType model_builder node =
      .ok (model_builder.AddOperand output0.Name
        (Operand.slice (shapeConstant model_builder input_shape)
          [effective_start input_shape.length (NodeAttrHelper.Get node.attrs "start" 0)]
          [effective_end input_shape.length (NodeAttrHelper.Get node.attrs "start" 0)
              (NodeAttrHelper.Get node.attrs "end" (input_shape.length : Int))
            - effective_start input_shape.length (NodeAttrHelper.Get node.attrs "start" 0)]
          node.Name))
    ∧ computeSlice [("start", -2), ("end", 4)] 4 = ⟨2, 4, 2⟩
    ∧ computeSlice [("start", 0), ("end", 100)] 3 = ⟨0, 3, 3⟩
    ∧ computeSlice [("start", 5), ("end", 1)] 4 = ⟨4, 4, 0⟩ := by
  exact ⟨AddToModelBuilderImpl_effective SetWebnnDataType model_builder node input0 output0
    input_shape h_in h_shape h_type h_out h_rank h_start h_end, by decide, by decide, by decide⟩

/-- Witness of C1 on a rank-4 input with `start = -2`, `end = 4`. -/
theorem C1_shape_slice_start_and_size_witness :
    AddToModelBuilderImpl exampleSetWebnnDataType exampleBuilder exampleNode =
      .ok (exampleBuilder.AddOperand "y"
        (Operand.slice (shapeConstant exampleBuilder [2, 3, 4, 5])
          [effective_start 4 (-2)] [effective_end 4 (-2) 4 - effective_start 4 (-2)] "shape_0"))
    ∧ computeSlice [("start", -2), ("end", 4)] 4 = ⟨2, 4, 2⟩
    ∧ computeSlice [("start", 0), ("end", 100)] 3 = ⟨0, 3, 3⟩
    ∧ computeSlice [("start", 5), ("end", 1)] 4 = ⟨4, 4, 0⟩ :=
  C1_shape_slice_start_and_size exampleSetWebnnDataType exampleBuilder exampleNode
    { Name := "x", Shape := some [2, 3, 4, 5] } { Name := "y", Shape := none } [2, 3, 4, 5]
    rfl rfl (by decide) rfl (by decide) (by decide) (by decide)

theorem effective_start_eq_onnxBound (rank start : Int) (h : 0 ≤ rank) :
    effective_start rank start = onnxBound rank start := by
  unfold effective_start onnxBound clamp
  split_ifs <;> omega

theorem effective_end_eq (rank start end_ : Int) (h : 0 ≤ rank) :
    effective_end rank start end_ =
      if onnxBound rank end_ ≤ onnxBound rank start then onnxBound rank start
      else onnxBound rank end_ := by
  rw [← effective_start_eq_onnxBound rank start h]
  unfold effective_end effective_start onnxBound clamp
  split_ifs <;> omega

theorem slice_eq_onnxShapeReference (buffer : List Int) (start end_ : Option Int) :
    (buffer.drop (effective_start buffer.length (start.getD 0)).toNat).take
        (effective_end buffer.length (start.getD 0) (end_.getD buffer.length)
          - effective_start buffer.length (start.getD 0)).toNat
      = onnxShapeReference buffer start end_ := by
  have h0 : (0 : Int) ≤ buffer.length := by omega
  rw [effective_end_eq _ _ _ h0, effective_start_eq_onnxBound _ _ h0]
  unfold onnxShapeReference
  simp only []
  rw [show (max 0 (min (buffer.length : Int)
        (if start.getD 0 < 0 then start.getD 0 + buffer.length else start.getD 0)))
        = onnxBound buffer.length (start.getD 0) from rfl,
      show (max 0 (min (buffer.length : Int)
        (if end_.getD (buffer.length : Int) < 0 then end_.getD (buffer.length : Int) + buffer.length
          else end_.getD (buffer.length : Int))))
        = onnxBound buffer.length (end_.getD buffer.length) from rfl]
  split_ifs with h
  · simp
  · rfl

theorem onnxShapeReference_map (f : Int → Int) (shape : List Int) (start end_ : Option Int) :
    onnxShapeReference (shape.map f) start end_ = (onnxShapeReference shape start end_).map f := by
  unfold onnxShapeReference
  simp only [List.length_map, apply_ite (List.map f), List.map_nil, List.map_take, List.map_drop]

theorem shapeConstant_elements (model_builder : ModelBuilder) (input_shape : List Int) :
    (shapeConstant model_builder input_shape).elements
      = input_shape.map (typedArrayElement (shapeTypedArray model_builder)) := rfl

theorem slice_elements (input : Operand) (st sz : Int) (label : String) :
    (Operand.slice input [st] [sz] label).elements
      = (input.elements.drop st.toNat).take sz.toNat := rfl

/-- C2: for a node whose input 0 has a known shape of rank `r` and whose `start` and `end`
attributes are 32-bit values, the Shape lowering returns OK and the elements selected by
the emitted `(start, size)` slice of the shape constant are exactly the ONNX reference
result `shape[s:e]` (`s`, `e` independently offset when negative and clamped to `[0, r]`,
empty when `e <= s`), element for element as stored in the typed array; the emitted size
is `max(0, e - s)` and the emitted start is `s`. -/
theorem C2_shape_slice_refines_onnx_reference (SetWebnnDataType : Int → Bool)
    (model_builder : ModelBuilder) (node : Node) (input0 output0 : NodeArg)
    (input_shape : List Int)
    (h_in : node.InputDefs.get? 0 = some input0)
    (h_shape : GetShape input0 = some input_shape)
    (h_type : SetWebnnDataType (shapeDataType model_builder) = true)
    (h_out : node.OutputDefs.get? 0 = some output0)
    (h_rank : (input_shape.length : Int) ≤ INT32_MAX)
    (h_start : isInt32 (NodeAttrHelper.Get node.attrs "start" 0))
    (h_end : isInt32 (NodeAttrHelper.Get node.attrs "end" (input_shape.length : Int))) :
    ∃ (output : Operand) (true_start slice_length : Int),
      AddToModelBuilderImpl SetWebnnDataType model_builder node =
        .ok (model_builder.AddOperand output0.Name output)
      ∧ output = Operand.slice (shapeConstant model_builder input_shape)
          [true_start] [slice_length] node.Name
      ∧ output.elements =
          onnxShapeReference (shapeConstant model_builder input_shape).elements
            (node.attrs.lookup "start") (node.attrs.lookup "end")
      ∧ output.elements =
          (onnxShapeReference input_shape (node.attrs.lookup "start")
            (node.attrs.lookup "end")).map (typedArrayElement (shapeTypedArray model_builder))
      ∧ (model_builder.IsInt64Supported = true → output.elements =
          onnxShapeReference input_shape (node.attrs.lookup "start") (node.attrs.lookup "end"))
      ∧ slice_length =
          max 0 (onnxBound input_shape.length ((node.attrs.lookup "end").getD input_shape.length)
            - onnxBound input_shape.length ((node.attrs.lookup "start").getD 0))
      ∧ true_start = onnxBound input_shape.length ((node.attrs.lookup "start").getD 0) := by
  have h0 : (0 : Int) ≤ input_shape.length := by omega
  have hC := AddToModelBuilderImpl_effective SetWebnnDataType model_builder node input0 output0
    input_shape h_in h_shape h_type h_out h_rank h_start h_end
  have hsel : ((shapeConstant model_builder input_shape).elements.drop
        (effective_start input_shape.length (NodeAttrHelper.Get node.attrs "start" 0)).toNat).take
        (effective_end input_shape.length (NodeAttrHelper.Get node.attrs "start" 0)
            (NodeAttrHelper.Get node.attrs "end" (input_shape.length : Int))
          - effective_start input_shape.length (NodeAttrHelper.Get node.attrs "start" 0)).toNat
      = onnxShapeReference (shapeConstant model_builder input_shape).elements
          (node.attrs.lookup "start") (node.attrs.lookup "end") := by
    have hlen : (((shapeConstant model_builder input_shape).elements.length : Nat) : Int)
        = (input_shape.length : Int) := by
      rw [shapeConstant_elements, List.length_map]
    have := slice_eq_onnxShapeReference (shapeConstant model_builder input_shape).elements
      (node.attrs.lookup "start") (node.attrs.lookup "end")
    rw [hlen] at this
    exact this
  have hmap : onnxShapeReference (shapeConstant model_builder input_shape).elements
        (node.attrs.lookup "start") (node.attrs.lookup "end")
      = (onnxShapeReference input_shape (node.attrs.lookup "start")
          (node.attrs.lookup "end")).map (typedArrayElement (shapeTypedArray model_builder)) := by
    rw [shapeConstant_elements, onnxShapeReference_map]
  refine ⟨_, _, _, hC, rfl, ?_, ?_, ?_, ?_, ?_⟩
  · rw [slice_elements]; exact hsel
  · rw [slice_elements, hsel, hmap]
  · intro h64
    rw [slice_elements, hsel, hmap]
    have hid : typedArrayElement (shapeTypedArray model_builder) = id := by
      funext x
      simp [typedArrayElement, shapeTypedArray, h64]
    rw [hid, List.map_id]
  · rw [effective_end_eq _ _ _ h0, effective_start_eq_onnxBound _ _ h0]
    unfold NodeAttrHelper.Get
    split_ifs <;> omega
  · rw [effective_start_eq_onnxBound _ _ h0]
    rfl

/-- Witness of C2 on a rank-4 input with `start = -2`, `end = 4`: the selected elements
are the last two dimensions. -/
theorem C2_shape_slice_refines_onnx_reference_witness :
    ∃ (output : Operand) (true_start slice_length : Int),
      AddToModelBuilderImpl exampleSetWebnnDataType exampleBuilder exampleNode =
        .ok (exampleBuilder.AddOperand "y" output)
      ∧ output = Operand.slice (shapeConstant exampleBuilder [2, 3, 4, 5])
          [true_start] [slice_length] "shape_0"
      ∧ output.elements =
          onnxShapeReference (shapeConstant exampleBuilder [2, 3, 4, 5]).elements
            (some (-2)) (some 4)
      ∧ output.elements =
          (onnxShapeReference [2, 3, 4, 5] (some (-2)) (some 4)).map
            (typedArrayElement (shapeTypedArray exampleBuilder))
      ∧ (exampleBuilder.IsInt64Supported = true → output.elements =
          onnxShapeReference [2, 3, 4, 5] (some (-2)) (some 4))
      ∧ slice_length = max 0 (onnxBound 4 4 - onnxBound 4 (-2))
      ∧ true_start = onnxBound 4 (-2) :=
  C2_shape_slice_refines_onnx_reference exampleSetWebnnDataType exampleBuilder exampleNode
    { Name := "x", Shape := some [2, 3, 4, 5] } { Name := "y", Shape := none } [2, 3, 4, 5]
    rfl rfl (by decide) rfl (by decide) (by decide) (by decide)

/-- C10: for every rank `0 <= r < 2^31` and 32-bit `start`/`end` values, the values
computed by the Shape lowering satisfy `0 <= true_start <= true_end <= r`, so
`slice_length >= 0` and `true_start + slice_length <= r`; both `std::clamp` calls have
lower bound `<=` upper bound; and the exact results of the two additions and of the
subtraction lie in the `int32_t` range, so the machine operations do not overflow. -/
theorem C10_shape_slice_in_bounds (attrs : List (String × Int)) (rank : Int)
    (hr0 : 0 ≤ rank) (hr : rank ≤ INT32_MAX)
    (h_start : isInt32 (NodeAttrHelper.Get attrs "start" 0))
    (h_end : isInt32 (NodeAttrHelper.Get attrs "end" rank)) :
    (0 ≤ (computeSlice attrs rank).true_start
      ∧ (computeSlice attrs rank).true_start ≤ (computeSlice attrs rank).true_end
      ∧ (computeSlice attrs rank).true_end ≤ rank)
    ∧ 0 ≤ (computeSlice attrs rank).slice_length
    ∧ (computeSlice attrs rank).true_start + (computeSlice attrs rank).slice_length ≤ rank
    ∧ ((0 : Int) ≤ rank ∧ (computeSlice attrs rank).true_start ≤ rank)
    ∧ isInt32 (NodeAttrHelper.Get attrs "start" 0
        + (if NodeAttrHelper.Get attrs "start" 0 < 0 then rank else 0))
    ∧ isInt32 (NodeAttrHelper.Get attrs "end" rank
        + (if NodeAttrHelper.Get attrs "end" rank < 0 then rank else 0))
    ∧ isInt32 ((computeSlice attrs rank).true_end - (computeSlice attrs rank).true_start)
    ∧ (computeSlice attrs rank).slice_length
        = (computeSlice attrs rank).true_end - (computeSlice attrs rank).true_start := by
  rw [computeSlice_exact attrs rank hr0 hr h_start h_end]
  generalize NodeAttrHelper.Get attrs "start" 0 = s0 at h_start ⊢
  generalize NodeAttrHelper.Get attrs "end" rank = e0 at h_end ⊢
  unfold isInt32 INT32_MIN INT32_MAX at *
  have hs1 : 0 ≤ effective_start rank s0 ∧ effective_start rank s0 ≤ rank := by
    unfold effective_start clamp; split_ifs <;> omega
  have he1 : effective_start rank s0 ≤ effective_end rank s0 e0
      ∧ effective_end rank s0 e0 ≤ rank := by
    unfold effective_end clamp; split_ifs <;> omega
  simp only []
  refine ⟨⟨hs1.1, he1.1, he1.2⟩, by omega, by omega, ⟨hr0, hs1.2⟩, ?_, ?_, by omega, trivial⟩
  · split_ifs <;> omega
  · split_ifs <;> omega

/-- Witness of C10 at rank 4 with `start = 5`, `end = 1`. -/
theorem C10_shape_slice_in_bounds_witness :
    (computeSlice [("start", 5), ("end", 1)] 4).true_start
        + (computeSlice [("start", 5), ("end", 1)] 4).slice_length ≤ 4 :=
  (C10_shape_slice_in_bounds [("start", 5), ("end", 1)] 4 (by decide) (by decide)
    (by decide) (by decide)).2.2.1

end webnn

namespace coreml

theorem IsOpSupportedImpl_cons5 (t : Bool) (node : Node) (p : OpBuilderInputParams)
    (i0 i1 i2 i3 i4 : NodeArg) (rest : List NodeArg)
    (h : node.InputDefs = i0 :: i1 :: i2 :: i3 :: i4 :: rest) :
    IsOpSupportedImpl t node p =
      (if node.OutputDefs.length ≠ 1 then Except.ok false
       else
        match GetShape i0 with
        | none => Except.ok false
        | some input_shape =>
          if input_shape.length ≠ 4 then Except.ok false
          else if NodeAttrHelper.Get node.int_attrs "spatial" 1 ≠ 1 then Except.ok false
          else if (!Contains p.GetAllInitializedTensors i1.Name) = true then Except.ok false
          else if (!Contains p.GetAllInitializedTensors i2.Name) = true then Except.ok false
          else if (!Contains p.GetAllInitializedTensors i3.Name) = true then Except.ok false
          else if (!Contains p.GetAllInitializedTensors i4.Name) = true then Except.ok false
          else if t = true then
            match i0.TypeAsProto with
            | some ty =>
              if ty.elem_type = TensorProto_DataType_FLOAT16 ∧ p.coreml_version < 7 then
                Except.ok false
              else Except.ok true
            | none => Except.error (Failure.undefined "TypeAsProto()")
          else Except.ok true) := by
  unfold IsOpSupportedImpl
  simp only [h, inputDef, List.get?]
  simp only [bind, Except.bind, pure, Except.pure]

theorem IsOpSupportedImpl_short (t : Bool) (node : Node) (p : OpBuilderInputParams)
    (hlen : node.InputDefs.length < 5) :
    IsOpSupportedImpl t node p ≠ .ok true := by
  intro h
  rcases hI : node.InputDefs with _ | ⟨i0, _ | ⟨i1, _ | ⟨i2, _ | ⟨i3, _ | ⟨i4, rest⟩⟩⟩⟩⟩
  · unfold IsOpSupportedImpl at h
    simp only [hI, inputDef, List.get?] at h
    simp only [bind, Except.bind, pure, Except.pure] at h
    split_ifs at h
    simp at h
  · unfold IsOpSupportedImpl at h
    simp only [hI, inputDef, List.get?] at h
    simp only [bind, Except.bind, pure, Except.pure] at h
    revert h
    cases hG : GetShape i0 <;> simp only [] <;> split_ifs <;> simp
  · unfold IsOpSupportedImpl at h
    simp only [hI, inputDef, List.get?] at h
    simp only [bind, Except.bind, pure, Except.pure] at h
    revert h
    cases hG : GetShape i0 <;> simp only [] <;> split_ifs <;> simp
  · unfold IsOpSupportedImpl at h
    simp only [hI, inputDef, List.get?] at h
    simp only [bind, Except.bind, pure, Except.pure] at h
    revert h
    cases hG : GetShape i0 <;> simp only [] <;> split_ifs <;> simp
  · unfold IsOpSupportedImpl at h
    simp only [hI, inputDef, List.get?] at h
    simp only [bind, Except.bind, pure, Except.pure] at h
    revert h
    cases hG : GetShape i0 <;> simp only [] <;> split_ifs <;> simp
  · rw [hI] at hlen
    simp only [List.length_cons] at hlen
    omega

theorem IsOpSupportedImpl_true_inv (t : Bool) (node : Node) (p : OpBuilderInputParams)
    (h : IsOpSupportedImpl t node p = .ok true) :
    ∃ (i0 i1 i2 i3 i4 o0 : NodeArg) (rest : List NodeArg) (ty : TypeProto) (shape : List Int),
      node.InputDefs = i0 :: i1 :: i2 :: i3 :: i4 :: rest
      ∧ node.OutputDefs = [o0]
      ∧ i0.TypeAsProto = some ty ∧ ty.shape = some shape ∧ shape.length = 4
      ∧ NodeAttrHelper.Get node.int_attrs "spatial" 1 = 1
      ∧ Contains p.GetAllInitializedTensors i1.Name = true
      ∧ Contains p.GetAllInitializedTensors i2.Name = true
      ∧ Contains p.GetAllInitializedTensors i3.Name = true
      ∧ Contains p.GetAllInitializedTensors i4.Name = true
      ∧ (t = true → ¬ (ty.elem_type = TensorProto_DataType_FLOAT16 ∧ p.coreml_version < 7)) := by
  rcases hI : node.InputDefs with _ | ⟨i0, _ | ⟨i1, _ | ⟨i2, _ | ⟨i3, _ | ⟨i4, rest⟩⟩⟩⟩⟩
  case cons.cons.cons.cons.cons =>
    rw [IsOpSupportedImpl_cons5 t node p i0 i1 i2 i3 i4 rest hI] at h
    rcases hO : node.OutputDefs with _ | ⟨o0, _ | ⟨o1, orest⟩⟩
    · simp [hO] at h
    · cases hT : i0.TypeAsProto with
      | none => simp [GetShape, hT] at h
      | some ty =>
        cases hS : ty.shape with
        | none => simp [GetShape, hT, hS] at h
        | some shape =>
          simp only [GetShape, hT, hS] at h
          refine ⟨i0, i1, i2, i3, i4, o0, rest, ty, shape, rfl, rfl, hT, hS, ?_⟩
          split_ifs at h <;> simp_all
    · simp [hO] at h
  all_goals
    exact absurd h (IsOpSupportedImpl_short t node p (by rw [hI]; simp))

/-- C3 as stated fails: a training-mode export (three outputs) with a known 4-D input, no
`spatial` attribute and all four parameters in the initializer store is rejected; and in a
build for the iOS x86_64 simulator so is a half-precision input on CoreML 6. -/
theorem C3_counterexample :
    (GetShape exampleInput = some [1, 3, 8, 8]
      ∧ exampleTrainingNode.int_attrs.lookup "spatial" = none
      ∧ Contains exampleParams.GetAllInitializedTensors "scale" = true
      ∧ Contains exampleParams.GetAllInitializedTensors "B" = true
      ∧ Contains exampleParams.GetAllInitializedTensors "mean" = true
      ∧ Contains exampleParams.GetAllInitializedTensors "var" = true
      ∧ IsOpSupportedImpl false exampleTrainingNode exampleParams = .ok false)
    ∧ IsOpSupportedImpl true exampleHalfNode exampleParams = .ok false := by
  refine ⟨⟨rfl, rfl, rfl, rfl, rfl, rfl, rfl⟩, rfl⟩

/-- C3 (amended): a node with exactly one output, whose input 0 has a known 4-D shape,
whose `spatial` attribute is 1 or absent and whose four parameter inputs are in the
initializer store is supported, provided that, in a build for the iOS x86_64 simulator,
input 0 is not FLOAT16 or the CoreML version is at least 7. -/
theorem C3_supported_when_eligible (target_ios_x86_64 : Bool) (node : Node)
    (input_params : OpBuilderInputParams) (i0 i1 i2 i3 i4 : NodeArg) (rest : List NodeArg)
    (ty : TypeProto) (shape : List Int)
    (h_inputs : node.InputDefs = i0 :: i1 :: i2 :: i3 :: i4 :: rest)
    (h_outputs : node.OutputDefs.length = 1)
    (h_type : i0.TypeAsProto = some ty)
    (h_shape : ty.shape = some shape)
    (h_rank : shape.length = 4)
    (h_spatial : node.int_attrs.lookup "spatial" = none ∨ node.int_attrs.lookup "spatial" = some 1)
    (h_scale : Contains input_params.GetAllInitializedTensors i1.Name = true)
    (h_b : Contains input_params.GetAllInitializedTensors i2.Name = true)
    (h_mean : Contains input_params.GetAllInitializedTensors i3.Name = true)
    (h_var : Contains input_params.GetAllInitializedTensors i4.Name = true)
    (h_target : target_ios_x86_64 = true →
      ty.elem_type ≠ TensorProto_DataType_FLOAT16 ∨ 7 ≤ input_params.coreml_version) :
    IsOpSupportedImpl target_ios_x86_64 node input_params = .ok true := by
  have hsp : NodeAttrHelper.Get node.int_attrs "spatial" 1 = 1 := by
    unfold NodeAttrHelper.Get
    rcases h_spatial with h | h <;> rw [h] <;> rfl
  rw [IsOpSupportedImpl_cons5 target_ios_x86_64 node input_params i0 i1 i2 i3 i4 rest h_inputs]
  simp only [GetShape, h_type, h_shape, h_outputs, h_rank, hsp, h_scale, h_b, h_mean, h_var,
    ne_eq, not_true_eq_false, if_false, Bool.not_true, Bool.false_eq_true]
  by_cases ht : target_ios_x86_64 = true
  · rw [if_pos ht]
    have hn : ¬ (ty.elem_type = TensorProto_DataType_FLOAT16 ∧ input_params.coreml_version < 7) := by
      rintro ⟨h1, h2⟩
      rcases h_target ht with h | h
      · exact h h1
      · omega
    rw [if_neg hn]
  · rw [if_neg ht]

/-- Witness of C3 (amended) on the inference-mode example node. -/
theorem C3_supported_when_eligible_witness :
    IsOpSupportedImpl false exampleNode exampleParams = .ok true :=
  C3_supported_when_eligible false exampleNode exampleParams exampleInput (exampleArg "scale")
    (exampleArg "B") (exampleArg "mean") (exampleArg "var") []
    { elem_type := TensorProto_DataType_FLOAT, shape := some [1, 3, 8, 8] } [1, 3, 8, 8]
    rfl rfl rfl rfl rfl (Or.inl rfl) rfl rfl rfl rfl (by decide)

/-- C4: for every node with five inputs, if the output count is not 1, or the shape of
input 0 is unknown or its rank is not 4, or `spatial` is present with a value other than
1, or one of the four parameter input names is missing from the initializer store, then
`IsOpSupportedImpl` returns false, whatever the other attributes and inputs are. -/
theorem C4_ineligible_rejected (target_ios_x86_64 : Bool) (node : Node)
    (input_params : OpBuilderInputParams) (i0 i1 i2 i3 i4 : NodeArg)
    (h_inputs : node.InputDefs = [i0, i1, i2, i3, i4])
    (h : node.OutputDefs.length ≠ 1
      ∨ GetShape i0 = none
      ∨ (∃ shape, GetShape i0 = some shape ∧ shape.length ≠ 4)
      ∨ (∃ v, node.int_attrs.lookup "spatial" = some v ∧ v ≠ 1)
      ∨ Contains input_params.GetAllInitializedTensors i1.Name = false
      ∨ Contains input_params.GetAllInitializedTensors i2.Name = false
      ∨ Contains input_params.GetAllInitializedTensors i3.Name = false
      ∨ Contains input_params.GetAllInitializedTensors i4.Name = false) :
    IsOpSupportedImpl target_ios_x86_64 node input_params = .ok false := by
  rw [IsOpSupportedImpl_cons5 target_ios_x86_64 node input_params i0 i1 i2 i3 i4 [] h_inputs]
  by_cases hO : node.OutputDefs.length ≠ 1
  · rw [if_pos hO]
  rw [if_neg hO]
  cases hG : GetShape i0 with
  | none => rfl
  | some shape =>
    simp only []
    by_cases hR : shape.length ≠ 4
    · rw [if_pos hR]
    rw [if_neg hR]
    by_cases hS : NodeAttrHelper.Get node.int_attrs "spatial" 1 ≠ 1
    · rw [if_pos hS]
    rw [if_neg hS]
    by_cases h1 : (!Contains input_params.GetAllInitializedTensors i1.Name) = true
    · rw [if_pos h1]
    rw [if_neg h1]
    by_cases h2 : (!Contains input_params.GetAllInitializedTensors i2.Name) = true
    · rw [if_pos h2]
    rw [if_neg h2]
    by_cases h3 : (!Contains input_params.GetAllInitializedTensors i3.Name) = true
    · rw [if_pos h3]
    rw [if_neg h3]
    by_cases h4 : (!Contains input_params.GetAllInitializedTensors i4.Name) = true
    · rw [if_pos h4]
    rw [if_neg h4]
    exfalso
    rcases h with h | h | ⟨sh, h, h'⟩ | ⟨v, h, h'⟩ | h | h | h | h
    · exact hO h
    · rw [hG] at h; cases h
    · rw [hG] at h; cases h; exact hR h'
    · apply hS
      unfold NodeAttrHelper.Get
      rw [h]
      exact h'
    · rw [h] at h1; exact h1 rfl
    · rw [h] at h2; exact h2 rfl
    · rw [h] at h3; exact h3 rfl
    · rw [h] at h4; exact h4 rfl

/-- Witness of C4 on the training-mode example node (three outputs). -/
theorem C4_ineligible_rejected_witness :
    IsOpSupportedImpl false exampleTrainingNode exampleParams = .ok false :=
  C4_ineligible_rejected false exampleTrainingNode exampleParams exampleInput (exampleArg "scale")
    (exampleArg "B") (exampleArg "mean") (exampleArg "var") rfl (Or.inl (by decide))

theorem AddToModelBuilderImpl_mlprogram (W : TensorProto → Except String WeightParams)
    (mb : ModelBuilder) (node : Node)
    (i0 i1 i2 i3 i4 o0 : NodeArg) (rest orest : List NodeArg) (ty : TypeProto)
    (scale bias mean var : TensorProto) (c0 : Int) (drest : List Int)
    (hI : node.InputDefs = i0 :: i1 :: i2 :: i3 :: i4 :: rest)
    (hO : node.OutputDefs = o0 :: orest)
    (hT : i0.TypeAsProto = some ty)
    (h1 : mb.GetInitializerTensors.lookup i1.Name = some scale)
    (h2 : mb.GetInitializerTensors.lookup i2.Name = some bias)
    (h3 : mb.GetInitializerTensors.lookup i3.Name = some mean)
    (h4 : mb.GetInitializerTensors.lookup i4.Name = some var)
    (hd : scale.dims = c0 :: drest)
    (hML : mb.CreateMLProgram = true) :
    AddToModelBuilderImpl W mb node = .ok
      { mb with
        constants := mb.constants ++
          [(uniqueConstantName mb.name_token "batch_norm" (i3.Name ++ "mean"), .tensor mean),
           (uniqueConstantName (mb.name_token + 1) "batch_norm" (i4.Name ++ "variance"), .tensor var),
           (uniqueConstantName (mb.name_token + 2) "batch_norm" i1.Name, .tensor scale),
           (uniqueConstantName (mb.name_token + 3) "batch_norm" i2.Name, .tensor bias),
           (uniqueConstantName (mb.name_token + 4) "batch_norm" "epsilon",
             if ty.elem_type = TensorProto_DataType_FLOAT16
              then .scalar_fp16 (NodeAttrHelper.Get node.float_attrs "epsilon" default_epsilon)
              else .scalar_float (NodeAttrHelper.Get node.float_attrs "epsilon" default_epsilon))],
        name_token := mb.name_token + 5,
        operations := mb.operations ++
          [{ type := "batch_norm", name := node.Name,
             inputs :=
               [("x", i0.Name),
                ("mean", uniqueConstantName mb.name_token "batch_norm" (i3.Name ++ "mean")),
                ("variance", uniqueConstantName (mb.name_token + 1) "batch_norm" (i4.Name ++ "variance")),
                ("gamma", uniqueConstantName (mb.name_token + 2) "batch_norm" i1.Name),
                ("beta", uniqueConstantName (mb.name_token + 3) "batch_norm" i2.Name),
                ("epsilon", uniqueConstantName (mb.name_token + 4) "batch_norm" "epsilon")],
             outputs := [o0.Name] }] } := by
  unfold AddToModelBuilderImpl
  simp only [hI, hO, hT, inputDef, List.get?, InitializedTensorSet.at, h1, h2, h3, h4, hd,
    bind, Except.bind, pure, Except.pure]
  rw [if_pos hML]
  simp only [ModelBuilder.AddConstant, ModelBuilder.CreateOperation, AddOperationInput,
    AddOperationOutput, ModelBuilder.AddOperation]
  by_cases hF : ty.elem_type = TensorProto_DataType_FLOAT16
  · simp [hF, List.filter]
  · simp [hF, List.filter]

theorem AddToModelBuilderImpl_nnlayer (W : TensorProto → Except String WeightParams)
    (mb : ModelBuilder) (node : Node)
    (i0 i1 i2 i3 i4 o0 : NodeArg) (rest orest : List NodeArg)
    (scale bias mean var : TensorProto) (c0 : Int) (drest : List Int)
    (g b m v : WeightParams)
    (hI : node.InputDefs = i0 :: i1 :: i2 :: i3 :: i4 :: rest)
    (hO : node.OutputDefs = o0 :: orest)
    (h1 : mb.GetInitializerTensors.lookup i1.Name = some scale)
    (h2 : mb.GetInitializerTensors.lookup i2.Name = some bias)
    (h3 : mb.GetInitializerTensors.lookup i3.Name = some mean)
    (h4 : mb.GetInitializerTensors.lookup i4.Name = some var)
    (hd : scale.dims = c0 :: drest)
    (hg : W scale = .ok g) (hb : W bias = .ok b) (hm : W mean = .ok m) (hv : W var = .ok v)
    (hNN : mb.CreateMLProgram = false) :
    AddToModelBuilderImpl W mb node = .ok
      { mb with
        layers := mb.layers ++
          [{ name := node.Name, input := [i0.Name], output := [o0.Name],
             batchnorm := some
               { channels := c0 % 18446744073709551616,
                 epsilon := NodeAttrHelper.Get node.float_attrs "epsilon" default_epsilon,
                 computeMeanVar := false, instanceNormalization := false,
                 gamma := g, beta := b, mean := m, variance := v } }] } := by
  unfold AddToModelBuilderImpl
  simp only [hI, hO, inputDef, List.get?, InitializedTensorSet.at, h1, h2, h3, h4, hd,
    hg, hb, hm, hv, returnIfError, bind, Except.bind, pure, Except.pure]
  rw [if_neg (by rw [hNN]; exact Bool.false_ne_true)]
  simp [ModelBuilder.CreateNNLayer, ModelBuilder.AddLayer]

theorem lookup_of_Contains (initializers : InitializedTensorSet) (key : String)
    (h : Contains initializers key = true) : ∃ t, initializers.lookup key = some t := by
  unfold Contains at h
  exact Option.isSome_iff_exists.mp h

/-- C5 as stated fails: with a `scale` initializer that has no dimensions the predicate
returns true, yet under both dialects emission reads `scale_tensor.dims()[0]` out of range;
and with a weight conversion that rejects the element type of `scale` the fixed-function
dialect returns an error status. -/
theorem C5_counterexample :
    (IsOpSupportedImpl false exampleNode
        { GetAllInitializedTensors := exampleScalarScaleInitializers, coreml_version := 6 } = .ok true
      ∧ AddToModelBuilderImpl exampleCreateCoreMLWeight
          (exampleBuilder false exampleScalarScaleInitializers) exampleNode
          = .error (.undefined "scale_tensor.dims()[0]")
      ∧ AddToModelBuilderImpl exampleCreateCoreMLWeight
          (exampleBuilder true exampleScalarScaleInitializers) exampleNode
          = .error (.undefined "scale_tensor.dims()[0]"))
    ∧ (IsOpSupportedImpl false exampleNode
        { GetAllInitializedTensors := exampleDoubleScaleInitializers, coreml_version := 6 } = .ok true
      ∧ AddToModelBuilderImpl exampleFloatOnlyCreateCoreMLWeight
          (exampleBuilder false exampleDoubleScaleInitializers) exampleNode
          = .error (.status "The initializer of graph has unsupported type")) :=
  ⟨⟨rfl, rfl, rfl⟩, rfl, rfl⟩

/-- C5 (amended): when `IsOpSupportedImpl` returns true, emission over the same initializer
store finds each of the four initializers (inputs 1-4) under both dialects, and it returns
OK provided the scale tensor has at least one dimension and, in the fixed-function
dialect, the weight conversion of each of the four tensors succeeds. -/
theorem C5_supported_commits_emission (CreateCoreMLWeight : TensorProto → Except String WeightParams)
    (target_ios_x86_64 : Bool) (node : Node) (input_params : OpBuilderInputParams)
    (model_builder : ModelBuilder)
    (h_supported : IsOpSupportedImpl target_ios_x86_64 node input_params = .ok true)
    (h_store : model_builder.GetInitializerTensors = input_params.GetAllInitializedTensors)
    (h_dims : ∀ a s, node.InputDefs.get? 1 = some a →
      model_builder.GetInitializerTensors.lookup a.Name = some s → s.dims ≠ [])
    (h_conv : model_builder.CreateMLProgram = false → ∀ k a s, k ∈ [1, 2, 3, 4] →
      node.InputDefs.get? k = some a →
      model_builder.GetInitializerTensors.lookup a.Name = some s →
      ∃ w, CreateCoreMLWeight s = .ok w) :
    (∀ k ∈ [1, 2, 3, 4], ∃ a s, node.InputDefs.get? k = some a
        ∧ model_builder.GetInitializerTensors.at a.Name = .ok s)
    ∧ ∃ model_builder', AddToModelBuilderImpl CreateCoreMLWeight model_builder node
        = .ok model_builder' := by
  obtain ⟨i0, i1, i2, i3, i4, o0, rest, ty, shape, hI, hO, hT, -, -, -, c1, c2, c3, c4, -⟩ :=
    IsOpSupportedImpl_true_inv target_ios_x86_64 node input_params h_supported
  rw [← h_store] at c1 c2 c3 c4
  obtain ⟨scale, h1⟩ := lookup_of_Contains _ _ c1
  obtain ⟨bias, h2⟩ := lookup_of_Contains _ _ c2
  obtain ⟨mean, h3⟩ := lookup_of_Contains _ _ c3
  obtain ⟨var, h4⟩ := lookup_of_Contains _ _ c4
  have g1 : node.InputDefs.get? 1 = some i1 := by rw [hI]; rfl
  have g2 : node.InputDefs.get? 2 = some i2 := by rw [hI]; rfl
  have g3 : node.InputDefs.get? 3 = some i3 := by rw [hI]; rfl
  have g4 : node.InputDefs.get? 4 = some i4 := by rw [hI]; rfl
  refine ⟨?_, ?_⟩
  · intro k hk
    simp only [List.mem_cons, List.mem_singleton, List.not_mem_nil, or_false] at hk
    rcases hk with rfl | rfl | rfl | rfl
    · exact ⟨i1, scale, g1, by simp only [InitializedTensorSet.at, h1]⟩
    · exact ⟨i2, bias, g2, by simp only [InitializedTensorSet.at, h2]⟩
    · exact ⟨i3, mean, g3, by simp only [InitializedTensorSet.at, h3]⟩
    · exact ⟨i4, var, g4, by simp only [InitializedTensorSet.at, h4]⟩
  · obtain ⟨c0, drest, hd⟩ : ∃ c0 drest, scale.dims = c0 :: drest := by
      cases hsd : scale.dims with
      | nil => exact absurd hsd (h_dims i1 scale g1 h1)
      | cons c0 drest => exact ⟨c0, drest, rfl⟩
    cases hML : model_builder.CreateMLProgram with
    | true =>
      exact ⟨_, AddToModelBuilderImpl_mlprogram CreateCoreMLWeight model_builder node
        i0 i1 i2 i3 i4 o0 rest [] ty scale bias mean var c0 drest hI hO hT h1 h2 h3 h4 hd hML⟩
    | false =>
      obtain ⟨g, hg⟩ := h_conv hML 1 i1 scale (by decide) g1 h1
      obtain ⟨b, hb⟩ := h_conv hML 2 i2 bias (by decide) g2 h2
      obtain ⟨m, hm⟩ := h_conv hML 3 i3 mean (by decide) g3 h3
      obtain ⟨v, hv⟩ := h_conv hML 4 i4 var (by decide) g4 h4
      exact ⟨_, AddToModelBuilderImpl_nnlayer CreateCoreMLWeight model_builder node
        i0 i1 i2 i3 i4 o0 rest [] scale bias mean var c0 drest g b m v hI hO h1 h2 h3 h4 hd
        hg hb hm hv hML⟩

/-- Witness of C5 (amended) on the example node in the fixed-function dialect. -/
theorem C5_supported_commits_emission_witness :
    (∀ k ∈ [1, 2, 3, 4], ∃ a s, exampleNode.InputDefs.get? k = some a
        ∧ (exampleBuilder false exampleInitializers).GetInitializerTensors.at a.Name = .ok s)
    ∧ ∃ model_builder', AddToModelBuilderImpl exampleCreateCoreMLWeight
        (exampleBuilder false exampleInitializers) exampleNode = .ok model_builder' :=
  C5_supported_commits_emission exampleCreateCoreMLWeight false exampleNode exampleParams
    (exampleBuilder false exampleInitializers)
    (show IsOpSupportedImpl false exampleNode exampleParams = .ok true from rfl)
    rfl
    (by
      intro a s ha hs
      have ha' : a = exampleArg "scale" := by
        have : some (exampleArg "scale") = some a := ha
        exact (Option.some.inj this).symm
      subst ha'
      have hs' : s = exampleTensor "scale" := by
        have : some (exampleTensor "scale") = some s := hs
        exact (Option.some.inj this).symm
      subst hs'
      decide)
    (by
      intro _ k a s _ _ _
      exact ⟨{ values := s.raw_data }, rfl⟩)

theorem AddInitializerToSkip_mem (mb : ModelBuilder) (tensor_name name : String) :
    name ∈ (mb.AddInitializerToSkip tensor_name).skipped_initializers
      ↔ name ∈ mb.skipped_initializers ∨ name = tensor_name := by
  unfold ModelBuilder.AddInitializerToSkip
  split_ifs with h
  · constructor
    · intro hm; exact Or.inl hm
    · rintro (hm | rfl)
      · exact hm
      · exact h
  · simp

theorem AddInitializerToSkip_frame (mb : ModelBuilder) (tensor_name : String) :
    { mb.AddInitializerToSkip tensor_name with skipped_initializers := mb.skipped_initializers }
      = mb := by
  unfold ModelBuilder.AddInitializerToSkip
  split_ifs <;> rfl

theorem AddInitializerToSkip_extends (mb : ModelBuilder) (tensor_name : String) :
    ∃ added, (mb.AddInitializerToSkip tensor_name).skipped_initializers
      = mb.skipped_initializers ++ added := by
  unfold ModelBuilder.AddInitializerToSkip
  split_ifs
  · exact ⟨[], by simp⟩
  · exact ⟨[tensor_name], rfl⟩

/-- C7: for a node with five inputs and any builder state, `AddInitializersToSkip`
completes, a name is in the resulting skip set exactly when it was there before or is the
name of input 1, 2, 3 or 4 (so the name of input 0 is not registered unless it was present
or coincides with a parameter name), the earlier skip set is kept in place as a prefix,
and no other part of the builder changes. -/
theorem C7_skip_registers_four_parameters (model_builder : ModelBuilder) (node : Node)
    (i0 i1 i2 i3 i4 : NodeArg)
    (h_inputs : node.InputDefs = [i0, i1, i2, i3, i4]) :
    ∃ model_builder', AddInitializersToSkip model_builder node = .ok model_builder'
      ∧ (∀ name, name ∈ model_builder'.skipped_initializers
          ↔ name ∈ model_builder.skipped_initializers
            ∨ name = i1.Name ∨ name = i2.Name ∨ name = i3.Name ∨ name = i4.Name)
      ∧ (i0.Name ∉ model_builder.skipped_initializers → i0.Name ≠ i1.Name → i0.Name ≠ i2.Name →
          i0.Name ≠ i3.Name → i0.Name ≠ i4.Name → i0.Name ∉ model_builder'.skipped_initializers)
      ∧ (∃ added, model_builder'.skipped_initializers
          = model_builder.skipped_initializers ++ added)
      ∧ { model_builder' with skipped_initializers := model_builder.skipped_initializers }
          = model_builder := by
  have hrun : AddInitializersToSkip model_builder node = .ok
      ((((model_builder.AddInitializerToSkip i1.Name).AddInitializerToSkip i2.Name).AddInitializerToSkip
        i3.Name).AddInitializerToSkip i4.Name) := by
    unfold AddInitializersToSkip
    simp only [h_inputs, inputDef, List.get?, bind, Except.bind, pure, Except.pure]
  have hmem : ∀ name, name ∈ ((((model_builder.AddInitializerToSkip i1.Name).AddInitializerToSkip
        i2.Name).AddInitializerToSkip i3.Name).AddInitializerToSkip i4.Name).skipped_initializers
      ↔ name ∈ model_builder.skipped_initializers
        ∨ name = i1.Name ∨ name = i2.Name ∨ name = i3.Name ∨ name = i4.Name := by
    intro name
    simp only [AddInitializerToSkip_mem, or_assoc]
  refine ⟨_, hrun, hmem, ?_, ?_, ?_⟩
  · intro h0 h1 h2 h3 h4 hm
    rcases (hmem i0.Name).mp hm with h | h | h | h | h
    · exact h0 h
    · exact h1 h
    · exact h2 h
    · exact h3 h
    · exact h4 h
  · obtain ⟨a1, e1⟩ := AddInitializerToSkip_extends model_builder i1.Name
    obtain ⟨a2, e2⟩ := AddInitializerToSkip_extends (model_builder.AddInitializerToSkip i1.Name) i2.Name
    obtain ⟨a3, e3⟩ := AddInitializerToSkip_extends
      ((model_builder.AddInitializerToSkip i1.Name).AddInitializerToSkip i2.Name) i3.Name
    obtain ⟨a4, e4⟩ := AddInitializerToSkip_extends
      (((model_builder.AddInitializerToSkip i1.Name).AddInitializerToSkip i2.Name).AddInitializerToSkip
        i3.Name) i4.Name
    exact ⟨a1 ++ a2 ++ a3 ++ a4, by rw [e4, e3, e2, e1]; simp only [List.append_assoc]⟩
  · have f1 := AddInitializerToSkip_frame model_builder i1.Name
    have f2 := AddInitializerToSkip_frame (model_builder.AddInitializerToSkip i1.Name) i2.Name
    have f3 := AddInitializerToSkip_frame
      ((model_builder.AddInitializerToSkip i1.Name).AddInitializerToSkip i2.Name) i3.Name
    have f4 := AddInitializerToSkip_frame
      (((model_builder.AddInitializerToSkip i1.Name).AddInitializerToSkip i2.Name).AddInitializerToSkip
        i3.Name) i4.Name
    rw [ModelBuilder.mk.injEq] at f1 f2 f3 f4 ⊢
    simp only [true_and, and_true] at f1 f2 f3 f4 ⊢
    obtain ⟨p1, q1, r1, s1, t1, u1⟩ := f1
    obtain ⟨p2, q2, r2, s2, t2, u2⟩ := f2
    obtain ⟨p3, q3, r3, s3, t3, u3⟩ := f3
    obtain ⟨p4, q4, r4, s4, t4, u4⟩ := f4
    exact ⟨by rw [p4, p3, p2, p1], by rw [q4, q3, q2, q1], by rw [r4, r3, r2, r1],
      by rw [s4, s3, s2, s1], by rw [t4, t3, t2, t1], by rw [u4, u3, u2, u1]⟩

/-- Witness of C7 on the example node and an empty builder. -/
theorem C7_skip_registers_four_parameters_witness :
    ∃ model_builder', AddInitializersToSkip (exampleBuilder false exampleInitializers) exampleNode
        = .ok model_builder'
      ∧ (∀ name, name ∈ model_builder'.skipped_initializers
          ↔ name ∈ (exampleBuilder false exampleInitializers).skipped_initializers
            ∨ name = "scale" ∨ name = "B" ∨ name = "mean" ∨ name = "var")
      ∧ ("x" ∉ (exampleBuilder false exampleInitializers).skipped_initializers → "x" ≠ "scale" →
          "x" ≠ "B" → "x" ≠ "mean" → "x" ≠ "var" → "x" ∉ model_builder'.skipped_initializers)
      ∧ (∃ added, model_builder'.skipped_initializers
          = (exampleBuilder false exampleInitializers).skipped_initializers ++ added)
      ∧ { model_builder' with
            skipped_initializers := (exampleBuilder false exampleInitializers).skipped_initializers }
          = exampleBuilder false exampleInitializers :=
  C7_skip_registers_four_parameters (exampleBuilder false exampleInitializers) exampleNode
    exampleInput (exampleArg "scale") (exampleArg "B") (exampleArg "mean") (exampleArg "var") rfl

end coreml

theorem map_emplace_present {υ : Type} (m : List (String × υ)) (key : String) (value old : υ)
    (h : m.lookup key = some old) : map_emplace m key value = m := by
  unfold map_emplace
  rw [h]

theorem map_emplace_absent {υ : Type} (m : List (String × υ)) (key : String) (value : υ)
    (h : m.lookup key = none) : (map_emplace m key value).lookup key = some value := by
  unfold map_emplace
  rw [h]
  simp only [List.lookup_append, h, Option.none_or, List.lookup_cons, beq_self_eq_true]

/-- C9 as stated fails: registering `BatchNormalization` (respectively `Shape`) a second time
completes; the map still holds its single earlier entry, pointing at the builder registered
first, and the new builder object is merely appended to `builders`. -/
theorem C9_counterexample :
    (coreml.exampleRegistrations.op_builder_map.lookup "BatchNormalization" = some 0
      ∧ (coreml.CreateBatchNormalizationOpBuilder "BatchNormalization"
            coreml.exampleRegistrations).op_builder_map = [("BatchNormalization", 0)]
      ∧ (coreml.CreateBatchNormalizationOpBuilder "BatchNormalization"
            coreml.exampleRegistrations).builders
          = [coreml.OpBuilder.BatchNormalizationOpBuilder, coreml.OpBuilder.BatchNormalizationOpBuilder])
    ∧ (webnn.exampleRegistrations.op_builder_map.lookup "Shape" = some 0
      ∧ (webnn.CreateShapeOpBuilder "Shape" webnn.exampleRegistrations).op_builder_map
          = [("Shape", 0)]
      ∧ (webnn.CreateShapeOpBuilder "Shape" webnn.exampleRegistrations).builders
          = [webnn.OpBuilder.ShapeOpBuilder, webnn.OpBuilder.ShapeOpBuilder]) :=
  ⟨⟨rfl, rfl, rfl⟩, rfl, rfl, rfl⟩

/-- C9 (amended): `CreateBatchNormalizationOpBuilder` and `CreateShapeOpBuilder` always
complete and append one new builder to `builders`.  When the map already contains
`op_type` the map is left unchanged, so lookup still yields the earlier entry; when it does
not, an entry pointing at the new builder is inserted and lookup of `op_type` afterwards
returns the newly created builder. -/
theorem C9_registration_inserts_only_new_names (op_type : String)
    (regs_coreml : OpBuilderRegistrations coreml.OpBuilder)
    (regs_webnn : OpBuilderRegistrations webnn.OpBuilder) :
    ((coreml.CreateBatchNormalizationOpBuilder op_type regs_coreml).builders
        = regs_coreml.builders ++ [coreml.OpBuilder.BatchNormalizationOpBuilder]
      ∧ ((∃ i, regs_coreml.op_builder_map.lookup op_type = some i) →
          (coreml.CreateBatchNormalizationOpBuilder op_type regs_coreml).op_builder_map
            = regs_coreml.op_builder_map)
      ∧ (regs_coreml.op_builder_map.lookup op_type = none →
          (coreml.CreateBatchNormalizationOpBuilder op_type regs_coreml).op_builder_map.lookup op_type
            = some regs_coreml.builders.length
          ∧ (coreml.CreateBatchNormalizationOpBuilder op_type regs_coreml).find op_type
            = some coreml.OpBuilder.BatchNormalizationOpBuilder))
    ∧ ((webnn.CreateShapeOpBuilder op_type regs_webnn).builders
        = regs_webnn.builders ++ [webnn.OpBuilder.ShapeOpBuilder]
      ∧ ((∃ i, regs_webnn.op_builder_map.lookup op_type = some i) →
          (webnn.CreateShapeOpBuilder op_type regs_webnn).op_builder_map
            = regs_webnn.op_builder_map)
      ∧ (regs_webnn.op_builder_map.lookup op_type = none →
          (webnn.CreateShapeOpBuilder op_type regs_webnn).op_builder_map.lookup op_type
            = some regs_webnn.builders.length
          ∧ (webnn.CreateShapeOpBuilder op_type regs_webnn).find op_type
            = some webnn.OpBuilder.ShapeOpBuilder)) := by
  refine ⟨⟨rfl, ?_, ?_⟩, rfl, ?_, ?_⟩
  · rintro ⟨i, hi⟩
    exact map_emplace_present _ _ _ i hi
  · intro hn
    have hl : (coreml.CreateBatchNormalizationOpBuilder op_type regs_coreml).op_builder_map.lookup
        op_type = some regs_coreml.builders.length := by
      have := map_emplace_absent regs_coreml.op_builder_map op_type
        ((regs_coreml.builders ++ [coreml.OpBuilder.BatchNormalizationOpBuilder]).length - 1) hn
      simpa [coreml.CreateBatchNormalizationOpBuilder] using this
    refine ⟨hl, ?_⟩
    unfold OpBuilderRegistrations.find
    rw [hl]
    simp [coreml.CreateBatchNormalizationOpBuilder]
  · rintro ⟨i, hi⟩
    exact map_emplace_present _ _ _ i hi
  · intro hn
    have hl : (webnn.CreateShapeOpBuilder op_type regs_webnn).op_builder_map.lookup
        op_type = some regs_webnn.builders.length := by
      have := map_emplace_absent regs_webnn.op_builder_map op_type
        ((regs_webnn.builders ++ [webnn.OpBuilder.ShapeOpBuilder]).length - 1) hn
      simpa [webnn.CreateShapeOpBuilder] using this
    refine ⟨hl, ?_⟩
    unfold OpBuilderRegistrations.find
    rw [hl]
    simp [webnn.CreateShapeOpBuilder]

/-- Witness of C9 (amended): registering `Shape` in the CoreML example registry, where it
is not yet present, maps it to the new builder, and registering `BatchNormalization`
again leaves the map as it was. -/
theorem C9_registration_inserts_only_new_names_witness :
    (coreml.CreateBatchNormalizationOpBuilder "BatchNormalization"
        coreml.exampleRegistrations).op_builder_map = coreml.exampleRegistrations.op_builder_map
    ∧ (webnn.CreateShapeOpBuilder "BatchNormalization" webnn.exampleRegistrations).find
        "BatchNormalization" = some webnn.OpBuilder.ShapeOpBuilder :=
  ⟨(C9_registration_inserts_only_new_names "BatchNormalization" coreml.exampleRegistrations
      webnn.exampleRegistrations).1.2.1 ⟨0, rfl⟩,
   ((C9_registration_inserts_only_new_names "BatchNormalization" coreml.exampleRegistrations
      webnn.exampleRegistrations).2.2.2 rfl).2⟩

end onnxruntime
